import Mathlib

/-!
Shallow embedding of the proximity state machine of
`src/bluetooth_screen_lock/monitor.py` (class `ProximityMonitor`): the
signal tracker, the per-tick presence evaluator of `_scan_loop`, the
detection callback `on_detect`, `update_config`, and the scan supervisor's
reconnect backoff.  Times are rationals (seconds), RSSI values are integers
(dBm).  The Python sentinel `last_seen_ts == 0.0` for "never seen" is kept
as written.
-/

namespace BluetoothScreenLock

/-- `MonitorConfig` dataclass (monitor.py lines 36-52). -/
structure MonitorConfig where
  device_mac : Option String
  rssi_threshold : Int
  grace_period_sec : Int
  device_name : Option String := none
  hysteresis_db : Int := 5
  stale_after_sec : Int := 6
  unseen_grace_sec : Int := 8
  scan_interval_sec : Rat := 2
  near_consecutive_scans : Int := 2
  deriving Repr, DecidableEq

/-- Mutable monitor fields set in `__init__` (lines 94-99): `_last_seen_ts`
(0.0 means never seen, as in the source), `_last_rssi`, `_below_since_ts`,
`_near_consec_count`. -/
structure MonitorState where
  last_seen_ts : Rat := 0
  last_rssi : Option Int := none
  below_since_ts : Option Rat := none
  near_consec_count : Nat := 0
  deriving Repr, DecidableEq

/-- Events emitted by one evaluation tick: the `on_rssi`, `on_near`,
`on_away` callback invocations. -/
inductive MonitorEvent where
  | rssiUpdate (r : Option Int)
  | near (r : Int)
  | away
  deriving Repr, DecidableEq

/-- NEAR trigger with hysteresis (line 184):
`near_trigger = rssi_threshold + max(0, int(hysteresis_db))`. -/
def nearTrigger (cfg : MonitorConfig) : Int :=
  cfg.rssi_threshold + max 0 cfg.hysteresis_db

/-- Required consecutive qualifying scans (line 191):
`need = max(1, int(near_consecutive_scans))`. -/
def needOf (cfg : MonitorConfig) : Nat :=
  (max 1 cfg.near_consecutive_scans).toNat

/-- Sampling with staleness invalidation (lines 154-165): read
`rssi = _last_rssi`; if the device has been seen (`_last_seen_ts` truthy)
compute `since_seen = now - _last_seen_ts` and, when it exceeds
`max(stale_after_sec, 1.0)`, treat the RSSI as unknown and persistently
null `_last_rssi`.  Returns (rssi, since_seen, updated state). -/
def sample (cfg : MonitorConfig) (st : MonitorState) (now : Rat) :
    Option Int × Option Rat × MonitorState :=
  let rssi := st.last_rssi
  if st.last_seen_ts = 0 then
    (rssi, none, st)
  else
    let since := now - st.last_seen_ts
    let staleAfter : Rat := max (cfg.stale_after_sec : Rat) 1
    if since > staleAfter then
      (none, some since, { st with last_rssi := none })
    else
      (rssi, some since, st)

/-- NEAR debounce step (lines 186-198): increment the consecutive-above
counter when the RSSI is strictly above the near trigger, reset it
otherwise; when `on_near` is registered and the counter has reached the
requirement, emit Near and clamp the counter at the requirement. -/
def nearStep (hasOnNear : Bool) (cfg : MonitorConfig) (cnt : Nat) (r : Int) :
    Nat × List MonitorEvent :=
  let cnt1 := if nearTrigger cfg < r then cnt + 1 else 0
  if hasOnNear ∧ needOf cfg ≤ cnt1 then
    (needOf cfg, [MonitorEvent.near r])
  else (cnt1, [])

/-- Below-threshold timer step (lines 200-207): start the timer when the
RSSI is at or below the threshold; clear it only when the RSSI is strictly
above the near trigger; leave it unchanged in the hysteresis dead zone. -/
def belowStep (cfg : MonitorConfig) (below : Option Rat) (r : Int)
    (now : Rat) : Option Rat :=
  if r ≤ cfg.rssi_threshold then
    match below with
    | none => some now
    | some b => some b
  else if nearTrigger cfg < r then none
  else below

/-- Weak-signal AWAY test (lines 210-219): the timer is set and the weak
duration has reached the grace period. -/
def weakAway (cfg : MonitorConfig) (below : Option Rat) (now : Rat) : Bool :=
  match below with
  | some b => decide ((cfg.grace_period_sec : Rat) ≤ now - b)
  | none => false

/-- One iteration of the steady tick loop of `_scan_loop` (lines 153-239),
without the sleeps: sample with staleness invalidation, emit `on_rssi`
(when registered), evaluate NEAR debounce, maintain the below-threshold
timer, and decide AWAY via weak signal or via silence.  `hasOnNear` and
`hasOnRssi` record whether the optional callbacks were registered at
construction (`on_away` is required). -/
def evalTick (hasOnNear hasOnRssi : Bool) (cfg : MonitorConfig)
    (st : MonitorState) (now : Rat) : MonitorState × List MonitorEvent :=
  match sample cfg st now with
  | (rssi, sinceSeen, st1) =>
    let ev0 : List MonitorEvent :=
      if hasOnRssi then [MonitorEvent.rssiUpdate rssi] else []
    if st1.last_seen_ts = 0 then
      -- never seen yet; do nothing (lines 176-178)
      (st1, ev0)
    else
      let since2 : Rat :=
        match sinceSeen with
        | some s => s
        | none => now - st1.last_seen_ts
      match rssi with
      | some r =>
        let res := nearStep hasOnNear cfg st1.near_consec_count r
        let below1 := belowStep cfg st1.below_since_ts r now
        let away := weakAway cfg below1 now
        let st2 := { st1 with near_consec_count := res.1,
                              below_since_ts := if away then none else below1 }
        (st2, ev0 ++ res.2 ++ (if away then [MonitorEvent.away] else []))
      | none =>
        -- AWAY via silence (lines 220-230)
        let required : Rat := (cfg.stale_after_sec : Rat) + (cfg.unseen_grace_sec : Rat)
        let away : Bool := decide (required ≤ since2)
        let st2 := { st1 with near_consec_count := 0,
                              below_since_ts := if away then none else st1.below_since_ts }
        (st2, ev0 ++ (if away then [MonitorEvent.away] else []))

/-- A raw BLE detection as delivered to the detection callback: device
address, device name, advertisement RSSI, and the wall-clock time at which
it arrives (`time.time()` at line 135). -/
structure Detection where
  addr : String
  name : String
  rssi : Option Int
  time : Rat
  deriving Repr, DecidableEq

/-- Python `str.upper()` as a character-wise map. -/
def pyUpper (s : String) : String := String.mk (s.data.map Char.toUpper)

/-- Python `str.lower()` as a character-wise map. -/
def pyLower (s : String) : String := String.mk (s.data.map Char.toLower)

/-- Python `str.strip()`: drop whitespace from both ends. -/
def pyStrip (s : String) : String :=
  String.mk (((s.data.dropWhile Char.isWhitespace).reverse.dropWhile
    Char.isWhitespace).reverse)

/-- Target matching of the detection callback `on_detect` (lines 121-132):
MAC equality after uppercasing is preferred; exact case-insensitive name
equality is a fallback used only when no MAC is configured. -/
def matchesTarget (cfg : MonitorConfig) (devAddr devName : String) : Bool :=
  let targetMac := pyUpper (cfg.device_mac.getD "")
  let nameSub := pyLower (pyStrip (cfg.device_name.getD ""))
  let dAddr := pyUpper devAddr
  let dName := pyStrip devName
  if targetMac ≠ "" then dAddr = targetMac
  else if nameSub ≠ "" then
    (if dName ≠ "" then pyLower dName = nameSub else false)
  else false

/-- Detection callback `on_detect` (lines 119-141): on a match, record
`_last_seen_ts` and `_last_rssi`; non-matching detections are ignored. -/
def onDetect (cfg : MonitorConfig) (st : MonitorState) (d : Detection) :
    MonitorState :=
  if matchesTarget cfg d.addr d.name then
    { st with last_seen_ts := d.time, last_rssi := d.rssi }
  else st

/-- Apply all pending detections whose arrival time is at most `upTo`, in
order, returning the remaining queue (detections between ticks are coalesced
into the latest `(last_seen, last_rssi)` pair). -/
def applyDetections (cfg : MonitorConfig) (st : MonitorState)
    (ds : List Detection) (upTo : Rat) : MonitorState × List Detection :=
  match ds with
  | [] => (st, [])
  | d :: rest =>
    if d.time ≤ upTo then applyDetections cfg (onDetect cfg st d) rest upTo
    else (st, d :: rest)

/-- Run `n` evaluation ticks starting at time `t0`, with the source's tick
scheduling: after a tick the loop sleeps `max(1.0, scan_interval_sec)`
(lines 242-243), preceded by an extra `grace_period_sec` cooldown sleep when
that tick emitted Away (line 239).  Detections due before a tick are applied
first.  Returns the timed emitted events and the final state. -/
def runTicks (hasOnNear hasOnRssi : Bool) (cfg : MonitorConfig) :
    Nat → MonitorState → List Detection → Rat →
    List (Rat × MonitorEvent) × MonitorState
  | 0, st, _, _ => ([], st)
  | n + 1, st, ds, tickTime =>
    let p := applyDetections cfg st ds tickTime
    let q := evalTick hasOnNear hasOnRssi cfg p.1 tickTime
    let interval := max 1 cfg.scan_interval_sec
    let nextT :=
      if MonitorEvent.away ∈ q.2 then
        tickTime + (cfg.grace_period_sec : Rat) + interval
      else tickTime + interval
    let r := runTicks hasOnNear hasOnRssi cfg n q.1 p.2 nextT
    (q.2.map (fun e => (tickTime, e)) ++ r.1, r.2)

/-- `update_config` (lines 285-294): swap the configuration and reset every
tracker field to its empty/zero value. -/
def update_config (newCfg : MonitorConfig) (_st : MonitorState) :
    MonitorConfig × MonitorState :=
  (newCfg, { last_seen_ts := 0, last_rssi := none,
             below_since_ts := none, near_consec_count := 0 })

/-- Scan supervisor retry state: the reconnect `backoff` (initialised to
1.0 at line 112) and the consecutive BLE error counter (line 101). -/
structure SupState where
  backoff : Rat := 1
  bleErrorCount : Nat := 0
  deriving Repr, DecidableEq

/-- Logging verbosity chosen for a scanner failure. -/
inductive LogLevel where
  | warning
  | debug
  deriving Repr, DecidableEq

/-- Successful scanner start (lines 146-150): reset backoff to 1.0 and the
consecutive error counter to 0. -/
def onStartSuccess (_s : SupState) : SupState :=
  { backoff := 1, bleErrorCount := 0 }

/-- One scanner failure (lines 251-261): bump the consecutive error
counter, log at warning level for the first three consecutive failures and
at debug afterwards, sleep the current backoff, then double the backoff
capped at 30s.  Returns (new state, sleep duration, log level). -/
def onScanFailure (s : SupState) : SupState × Rat × LogLevel :=
  let c := s.bleErrorCount + 1
  let lvl := if c ≤ 3 then LogLevel.warning else LogLevel.debug
  ({ backoff := min (s.backoff * 2) 30, bleErrorCount := c }, s.backoff, lvl)

/-- Iterate `n` consecutive scanner failures, collecting each failure's
(sleep duration, log level). -/
def iterateFailures : Nat → SupState → List (Rat × LogLevel) × SupState
  | 0, s => ([], s)
  | n + 1, s =>
    match onScanFailure s with
    | (s1, d, lvl) =>
      match iterateFailures n s1 with
      | (rest, sF) => ((d, lvl) :: rest, sF)

/-- True exactly for Near events. -/
def isNearEvent : MonitorEvent → Bool
  | MonitorEvent.near _ => true
  | _ => false

/-- True exactly for the presence events Near and Away. -/
def isPresenceEvent : MonitorEvent → Bool
  | MonitorEvent.near _ => true
  | MonitorEvent.away => true
  | _ => false

/-- Configuration of the spec's end-to-end scenario: threshold -75 dBm,
hysteresis 5 dB, grace 15 s, one qualifying scan required (defaults
stale 6 s, unseen grace 8 s, scan interval 2 s). -/
def cfgScenario : MonitorConfig :=
  { device_mac := some "AA:BB:CC:DD:EE:FF", rssi_threshold := -75,
    grace_period_sec := 15, device_name := none, hysteresis_db := 5,
    stale_after_sec := 6, unseen_grace_sec := 8, scan_interval_sec := 2,
    near_consecutive_scans := 1 }

/-- Detections of the end-to-end scenario, shifted to base time 100 so that
relative t=0 does not collide with the source's `last_seen_ts == 0.0`
never-seen sentinel: relative times 0, 5, 16, 20. -/
def detsScenario : List Detection :=
  [ { addr := "aa:bb:cc:dd:ee:ff", name := "Phone", rssi := some (-80), time := 100 },
    { addr := "aa:bb:cc:dd:ee:ff", name := "Phone", rssi := some (-82), time := 105 },
    { addr := "aa:bb:cc:dd:ee:ff", name := "Phone", rssi := some (-81), time := 116 },
    { addr := "aa:bb:cc:dd:ee:ff", name := "Phone", rssi := some (-60), time := 120 } ]

/-- The end-to-end scenario run: 11 evaluation ticks starting at the first
detection, with both optional callbacks registered. -/
def runScenario : List (Rat × MonitorEvent) × MonitorState :=
  runTicks true true cfgScenario 11 {} detsScenario 100

/-- Configuration with threshold -75 dBm and hysteresis 5 dB (near trigger
-70 dBm) and the default two-scan NEAR debounce, for the hysteresis and
debounce claims. -/
def cfgHyst : MonitorConfig :=
  { device_mac := some "AA:BB:CC:DD:EE:FF", rssi_threshold := -75,
    grace_period_sec := 15, device_name := none, hysteresis_db := 5,
    stale_after_sec := 6, unseen_grace_sec := 8, scan_interval_sec := 2,
    near_consecutive_scans := 2 }

/-- Like `cfgHyst` but requiring a single qualifying scan. -/
def cfgOneScan : MonitorConfig :=
  { cfgHyst with near_consecutive_scans := 1 }

/-- Configuration whose target address and target name are both empty. -/
def cfgEmptyTarget : MonitorConfig :=
  { device_mac := none, rssi_threshold := -75, grace_period_sec := 15,
    device_name := none, hysteresis_db := 5, stale_after_sec := 6,
    unseen_grace_sec := 8, scan_interval_sec := 2, near_consecutive_scans := 2 }

/-- Like `cfgHyst` but with a negative hysteresis, for the clamping claim. -/
def cfgNegHyst : MonitorConfig :=
  { cfgHyst with hysteresis_db := -3 }

/-! ### Helper lemmas -/

/-- When the device has never been seen, sampling returns the stored RSSI
and no since-seen duration, and leaves the state unchanged. -/
theorem sample_neverSeen (cfg : MonitorConfig) (st : MonitorState) (now : Rat)
    (h : st.last_seen_ts = 0) :
    sample cfg st now = (st.last_rssi, none, st) := by
  simp [sample, h]

/-- Fresh sampling: seen, and within the (1s-floored) staleness window. -/
theorem sample_fresh (cfg : MonitorConfig) (st : MonitorState) (now : Rat)
    (h : st.last_seen_ts ≠ 0)
    (h2 : now - st.last_seen_ts ≤ max (cfg.stale_after_sec : Rat) 1) :
    sample cfg st now = (st.last_rssi, some (now - st.last_seen_ts), st) := by
  simp only [sample, if_neg h]
  rw [if_neg (not_lt.mpr h2)]

/-- Stale sampling: seen, but past the (1s-floored) staleness window; the
RSSI is reported unknown and the stored RSSI is persistently nulled. -/
theorem sample_stale (cfg : MonitorConfig) (st : MonitorState) (now : Rat)
    (h : st.last_seen_ts ≠ 0)
    (h2 : max (cfg.stale_after_sec : Rat) 1 < now - st.last_seen_ts) :
    sample cfg st now =
      (none, some (now - st.last_seen_ts), { st with last_rssi := none }) := by
  simp only [sample, if_neg h]
  rw [if_pos h2]

/-- A tick on a never-seen state emits only the RSSI update and leaves the
state unchanged. -/
theorem evalTick_neverSeen (hN hR : Bool) (cfg : MonitorConfig)
    (st : MonitorState) (now : Rat) (h : st.last_seen_ts = 0) :
    evalTick hN hR cfg st now =
      (st, if hR then [MonitorEvent.rssiUpdate st.last_rssi] else []) := by
  simp [evalTick, sample_neverSeen cfg st now h, h]

/-- A tick on a fresh, detected state with a known RSSI reduces to the
NEAR debounce step, the below-threshold timer step, and the weak-signal
AWAY test. -/
theorem evalTick_fresh (hN hR : Bool) (cfg : MonitorConfig)
    (st : MonitorState) (now : Rat) (r : Int)
    (h : st.last_seen_ts ≠ 0)
    (h2 : now - st.last_seen_ts ≤ max (cfg.stale_after_sec : Rat) 1)
    (hr : st.last_rssi = some r) :
    evalTick hN hR cfg st now =
      ({ st with near_consec_count := (nearStep hN cfg st.near_consec_count r).1,
                 below_since_ts :=
                   if weakAway cfg (belowStep cfg st.below_since_ts r now) now
                   then none else belowStep cfg st.below_since_ts r now },
       (if hR then [MonitorEvent.rssiUpdate (some r)] else []) ++
         (nearStep hN cfg st.near_consec_count r).2 ++
         (if weakAway cfg (belowStep cfg st.below_since_ts r now) now
          then [MonitorEvent.away] else [])) := by
  simp [evalTick, sample_fresh cfg st now h h2, hr, h]

/-- A tick on a detected state whose sampled RSSI is unknown (unseen or
stale) resets the NEAR counter and decides AWAY by total-silence duration. -/
theorem evalTick_null (hN hR : Bool) (cfg : MonitorConfig)
    (st : MonitorState) (now : Rat)
    (h : st.last_seen_ts ≠ 0)
    (hnull : (sample cfg st now).1 = none) :
    evalTick hN hR cfg st now =
      ({ st with last_rssi := none, near_consec_count := 0,
                 below_since_ts :=
                   if (cfg.stale_after_sec : Rat) + (cfg.unseen_grace_sec : Rat) ≤
                        now - st.last_seen_ts
                   then none else st.below_since_ts },
       (if hR then [MonitorEvent.rssiUpdate none] else []) ++
         (if (cfg.stale_after_sec : Rat) + (cfg.unseen_grace_sec : Rat) ≤
              now - st.last_seen_ts
          then [MonitorEvent.away] else [])) := by
  obtain ⟨t0, lr, bl, cnt⟩ := st
  simp only [MonitorState.last_seen_ts] at h
  by_cases h2 : max (cfg.stale_after_sec : Rat) 1 < now - t0
  · simp [evalTick, sample_stale cfg ⟨t0, lr, bl, cnt⟩ now h h2, h]
  · have hfresh := sample_fresh cfg ⟨t0, lr, bl, cnt⟩ now h (not_lt.mp h2)
    have hrn : lr = none := by
      rw [hfresh] at hnull; exact hnull
    subst hrn
    simp [evalTick, hfresh, h]

/-- Consecutive failures add up in the error counter. -/
theorem iterateFailures_count (n : Nat) (s : SupState) :
    (iterateFailures n s).2.bleErrorCount = s.bleErrorCount + n := by
  induction n generalizing s with
  | zero => simp [iterateFailures]
  | succ n ih =>
    simp only [iterateFailures, onScanFailure]
    rw [ih]
    show s.bleErrorCount + 1 + n = s.bleErrorCount + (n + 1)
    omega

/-! ### Claim theorems -/

/-- The scenario detections match the configured target MAC. -/
theorem hmatchScenario :
    matchesTarget cfgScenario "aa:bb:cc:dd:ee:ff" "Phone" = true := by decide

/-- Scenario scan interval after the 1s floor. -/
theorem hIntervalScenario : max 1 cfgScenario.scan_interval_sec = 2 := by
  norm_num [cfgScenario]

/-- Scenario grace period as a rational. -/
theorem hGraceScenario : ((cfgScenario.grace_period_sec : Int) : Rat) = 15 := by
  norm_num [cfgScenario]

/-- Unfold one scheduled tick that does not emit Away. -/
theorem runTicks_step_quiet {b c : Bool} {g : MonitorConfig} {n : Nat}
    {s u v : MonitorState} {d e : List Detection} {t : Rat}
    {w : List MonitorEvent}
    (h : applyDetections g s d t = (u, e))
    (h2 : evalTick b c g u t = (v, w))
    (h3 : MonitorEvent.away ∉ w) :
    runTicks b c g (n + 1) s d t =
      ((w.map (fun x => (t, x))) ++
        (runTicks b c g n v e (t + max 1 g.scan_interval_sec)).1,
       (runTicks b c g n v e (t + max 1 g.scan_interval_sec)).2) := by
  simp [runTicks, h, h2, h3]

/-- Unfold one scheduled tick that emits Away: the next tick is delayed by
the grace-period cooldown. -/
theorem runTicks_step_away {b c : Bool} {g : MonitorConfig} {n : Nat}
    {s u v : MonitorState} {d e : List Detection} {t : Rat}
    {w : List MonitorEvent}
    (h : applyDetections g s d t = (u, e))
    (h2 : evalTick b c g u t = (v, w))
    (h3 : MonitorEvent.away ∈ w) :
    runTicks b c g (n + 1) s d t =
      ((w.map (fun x => (t, x))) ++
        (runTicks b c g n v e
          (t + (g.grace_period_sec : Rat) + max 1 g.scan_interval_sec)).1,
       (runTicks b c g n v e
          (t + (g.grace_period_sec : Rat) + max 1 g.scan_interval_sec)).2) := by
  simp [runTicks, h, h2, h3]

/-- Full evaluation of the end-to-end scenario run. -/
theorem runScenario_eq :
    runScenario =
      ([(100, MonitorEvent.rssiUpdate (some (-80))),
       (102, MonitorEvent.rssiUpdate (some (-80))),
       (104, MonitorEvent.rssiUpdate (some (-80))),
       (106, MonitorEvent.rssiUpdate (some (-82))),
       (108, MonitorEvent.rssiUpdate (some (-82))),
       (110, MonitorEvent.rssiUpdate (some (-82))),
       (112, MonitorEvent.rssiUpdate none),
       (114, MonitorEvent.rssiUpdate none),
       (116, MonitorEvent.rssiUpdate (some (-81))),
       (116, MonitorEvent.away),
       (133, MonitorEvent.rssiUpdate none),
       (135, MonitorEvent.rssiUpdate none),
       (135, MonitorEvent.away)],
       { last_seen_ts := 120, last_rssi := none, below_since_ts := none, near_consec_count := 0 }) := by
  have a1 : applyDetections cfgScenario
      { last_seen_ts := 0, last_rssi := none, below_since_ts := none, near_consec_count := 0 }
      (detsScenario) 100 =
      ({ last_seen_ts := 100, last_rssi := some (-80), below_since_ts := none, near_consec_count := 0 },
       ([{ addr := "aa:bb:cc:dd:ee:ff", name := "Phone", rssi := some (-82), time := 105 }, { addr := "aa:bb:cc:dd:ee:ff", name := "Phone", rssi := some (-81), time := 116 }, { addr := "aa:bb:cc:dd:ee:ff", name := "Phone", rssi := some (-60), time := 120 }])) := by
    norm_num [applyDetections, onDetect, hmatchScenario, detsScenario]
  have e1 : evalTick true true cfgScenario
      { last_seen_ts := 100, last_rssi := some (-80), below_since_ts := none, near_consec_count := 0 } 100 =
      ({ last_seen_ts := 100, last_rssi := some (-80), below_since_ts := some 100, near_consec_count := 0 },
       [MonitorEvent.rssiUpdate (some (-80))]) := by
    norm_num [evalTick, sample, nearStep, belowStep, weakAway, nearTrigger, needOf, cfgScenario]
  have a2 : applyDetections cfgScenario
      { last_seen_ts := 100, last_rssi := some (-80), below_since_ts := some 100, near_consec_count := 0 }
      ([{ addr := "aa:bb:cc:dd:ee:ff", name := "Phone", rssi := some (-82), time := 105 }, { addr := "aa:bb:cc:dd:ee:ff", name := "Phone", rssi := some (-81), time := 116 }, { addr := "aa:bb:cc:dd:ee:ff", name := "Phone", rssi := some (-60), time := 120 }]) 102 =
      ({ last_seen_ts := 100, last_rssi := some (-80), below_since_ts := some 100, near_consec_count := 0 },
       ([{ addr := "aa:bb:cc:dd:ee:ff", name := "Phone", rssi := some (-82), time := 105 }, { addr := "aa:bb:cc:dd:ee:ff", name := "Phone", rssi := some (-81), time := 116 }, { addr := "aa:bb:cc:dd:ee:ff", name := "Phone", rssi := some (-60), time := 120 }])) := by
    norm_num [applyDetections, onDetect, hmatchScenario, detsScenario]
  have e2 : evalTick true true cfgScenario
      { last_seen_ts := 100, last_rssi := some (-80), below_since_ts := some 100, near_consec_count := 0 } 102 =
      ({ last_seen_ts := 100, last_rssi := some (-80), below_since_ts := some 100, near_consec_count := 0 },
       [MonitorEvent.rssiUpdate (some (-80))]) := by
    norm_num [evalTick, sample, nearStep, belowStep, weakAway, nearTrigger, needOf, cfgScenario]
  have a3 : applyDetections cfgScenario
      { last_seen_ts := 100, last_rssi := some (-80), below_since_ts := some 100, near_consec_count := 0 }
      ([{ addr := "aa:bb:cc:dd:ee:ff", name := "Phone", rssi := some (-82), time := 105 }, { addr := "aa:bb:cc:dd:ee:ff", name := "Phone", rssi := some (-81), time := 116 }, { addr := "aa:bb:cc:dd:ee:ff", name := "Phone", rssi := some (-60), time := 120 }]) 104 =
      ({ last_seen_ts := 100, last_rssi := some (-80), below_since_ts := some 100, near_consec_count := 0 },
       ([{ addr := "aa:bb:cc:dd:ee:ff", name := "Phone", rssi := some (-82), time := 105 }, { addr := "aa:bb:cc:dd:ee:ff", name := "Phone", rssi := some (-81), time := 116 }, { addr := "aa:bb:cc:dd:ee:ff", name := "Phone", rssi := some (-60), time := 120 }])) := by
    norm_num [applyDetections, onDetect, hmatchScenario, detsScenario]
  have e3 : evalTick true true cfgScenario
      { last_seen_ts := 100, last_rssi := some (-80), below_since_ts := some 100, near_consec_count := 0 } 104 =
      ({ last_seen_ts := 100, last_rssi := some (-80), below_since_ts := some 100, near_consec_count := 0 },
       [MonitorEvent.rssiUpdate (some (-80))]) := by
    norm_num [evalTick, sample, nearStep, belowStep, weakAway, nearTrigger, needOf, cfgScenario]
  have a4 : applyDetections cfgScenario
      { last_seen_ts := 100, last_rssi := some (-80), below_since_ts := some 100, near_consec_count := 0 }
      ([{ addr := "aa:bb:cc:dd:ee:ff", name := "Phone", rssi := some (-82), time := 105 }, { addr := "aa:bb:cc:dd:ee:ff", name := "Phone", rssi := some (-81), time := 116 }, { addr := "aa:bb:cc:dd:ee:ff", name := "Phone", rssi := some (-60), time := 120 }]) 106 =
      ({ last_seen_ts := 105, last_rssi := some (-82), below_since_ts := some 100, near_consec_count := 0 },
       ([{ addr := "aa:bb:cc:dd:ee:ff", name := "Phone", rssi := some (-81), time := 116 }, { addr := "aa:bb:cc:dd:ee:ff", name := "Phone", rssi := some (-60), time := 120 }])) := by
    norm_num [applyDetections, onDetect, hmatchScenario, detsScenario]
  have e4 : evalTick true true cfgScenario
      { last_seen_ts := 105, last_rssi := some (-82), below_since_ts := some 100, near_consec_count := 0 } 106 =
      ({ last_seen_ts := 105, last_rssi := some (-82), below_since_ts := some 100, near_consec_count := 0 },
       [MonitorEvent.rssiUpdate (some (-82))]) := by
    norm_num [evalTick, sample, nearStep, belowStep, weakAway, nearTrigger, needOf, cfgScenario]
  have a5 : applyDetections cfgScenario
      { last_seen_ts := 105, last_rssi := some (-82), below_since_ts := some 100, near_consec_count := 0 }
      ([{ addr := "aa:bb:cc:dd:ee:ff", name := "Phone", rssi := some (-81), time := 116 }, { addr := "aa:bb:cc:dd:ee:ff", name := "Phone", rssi := some (-60), time := 120 }]) 108 =
      ({ last_seen_ts := 105, last_rssi := some (-82), below_since_ts := some 100, near_consec_count := 0 },
       ([{ addr := "aa:bb:cc:dd:ee:ff", name := "Phone", rssi := some (-81), time := 116 }, { addr := "aa:bb:cc:dd:ee:ff", name := "Phone", rssi := some (-60), time := 120 }])) := by
    norm_num [applyDetections, onDetect, hmatchScenario, detsScenario]
  have e5 : evalTick true true cfgScenario
      { last_seen_ts := 105, last_rssi := some (-82), below_since_ts := some 100, near_consec_count := 0 } 108 =
      ({ last_seen_ts := 105, last_rssi := some (-82), below_since_ts := some 100, near_consec_count := 0 },
       [MonitorEvent.rssiUpdate (some (-82))]) := by
    norm_num [evalTick, sample, nearStep, belowStep, weakAway, nearTrigger, needOf, cfgScenario]
  have a6 : applyDetections cfgScenario
      { last_seen_ts := 105, last_rssi := some (-82), below_since_ts := some 100, near_consec_count := 0 }
      ([{ addr := "aa:bb:cc:dd:ee:ff", name := "Phone", rssi := some (-81), time := 116 }, { addr := "aa:bb:cc:dd:ee:ff", name := "Phone", rssi := some (-60), time := 120 }]) 110 =
      ({ last_seen_ts := 105, last_rssi := some (-82), below_since_ts := some 100, near_consec_count := 0 },
       ([{ addr := "aa:bb:cc:dd:ee:ff", name := "Phone", rssi := some (-81), time := 116 }, { addr := "aa:bb:cc:dd:ee:ff", name := "Phone", rssi := some (-60), time := 120 }])) := by
    norm_num [applyDetections, onDetect, hmatchScenario, detsScenario]
  have e6 : evalTick true true cfgScenario
      { last_seen_ts := 105, last_rssi := some (-82), below_since_ts := some 100, near_consec_count := 0 } 110 =
      ({ last_seen_ts := 105, last_rssi := some (-82), below_since_ts := some 100, near_consec_count := 0 },
       [MonitorEvent.rssiUpdate (some (-82))]) := by
    norm_num [evalTick, sample, nearStep, belowStep, weakAway, nearTrigger, needOf, cfgScenario]
  have a7 : applyDetections cfgScenario
      { last_seen_ts := 105, last_rssi := some (-82), below_since_ts := some 100, near_consec_count := 0 }
      ([{ addr := "aa:bb:cc:dd:ee:ff", name := "Phone", rssi := some (-81), time := 116 }, { addr := "aa:bb:cc:dd:ee:ff", name := "Phone", rssi := some (-60), time := 120 }]) 112 =
      ({ last_seen_ts := 105, last_rssi := some (-82), below_since_ts := some 100, near_consec_count := 0 },
       ([{ addr := "aa:bb:cc:dd:ee:ff", name := "Phone", rssi := some (-81), time := 116 }, { addr := "aa:bb:cc:dd:ee:ff", name := "Phone", rssi := some (-60), time := 120 }])) := by
    norm_num [applyDetections, onDetect, hmatchScenario, detsScenario]
  have e7 : evalTick true true cfgScenario
      { last_seen_ts := 105, last_rssi := some (-82), below_since_ts := some 100, near_consec_count := 0 } 112 =
      ({ last_seen_ts := 105, last_rssi := none, below_since_ts := some 100, near_consec_count := 0 },
       [MonitorEvent.rssiUpdate none]) := by
    norm_num [evalTick, sample, nearStep, belowStep, weakAway, nearTrigger, needOf, cfgScenario]
  have a8 : applyDetections cfgScenario
      { last_seen_ts := 105, last_rssi := none, below_since_ts := some 100, near_consec_count := 0 }
      ([{ addr := "aa:bb:cc:dd:ee:ff", name := "Phone", rssi := some (-81), time := 116 }, { addr := "aa:bb:cc:dd:ee:ff", name := "Phone", rssi := some (-60), time := 120 }]) 114 =
      ({ last_seen_ts := 105, last_rssi := none, below_since_ts := some 100, near_consec_count := 0 },
       ([{ addr := "aa:bb:cc:dd:ee:ff", name := "Phone", rssi := some (-81), time := 116 }, { addr := "aa:bb:cc:dd:ee:ff", name := "Phone", rssi := some (-60), time := 120 }])) := by
    norm_num [applyDetections, onDetect, hmatchScenario, detsScenario]
  have e8 : evalTick true true cfgScenario
      { last_seen_ts := 105, last_rssi := none, below_since_ts := some 100, near_consec_count := 0 } 114 =
      ({ last_seen_ts := 105, last_rssi := none, below_since_ts := some 100, near_consec_count := 0 },
       [MonitorEvent.rssiUpdate none]) := by
    norm_num [evalTick, sample, nearStep, belowStep, weakAway, nearTrigger, needOf, cfgScenario]
  have a9 : applyDetections cfgScenario
      { last_seen_ts := 105, last_rssi := none, below_since_ts := some 100, near_consec_count := 0 }
      ([{ addr := "aa:bb:cc:dd:ee:ff", name := "Phone", rssi := some (-81), time := 116 }, { addr := "aa:bb:cc:dd:ee:ff", name := "Phone", rssi := some (-60), time := 120 }]) 116 =
      ({ last_seen_ts := 116, last_rssi := some (-81), below_since_ts := some 100, near_consec_count := 0 },
       ([{ addr := "aa:bb:cc:dd:ee:ff", name := "Phone", rssi := some (-60), time := 120 }])) := by
    norm_num [applyDetections, onDetect, hmatchScenario, detsScenario]
  have e9 : evalTick true true cfgScenario
      { last_seen_ts := 116, last_rssi := some (-81), below_since_ts := some 100, near_consec_count := 0 } 116 =
      ({ last_seen_ts := 116, last_rssi := some (-81), below_since_ts := none, near_consec_count := 0 },
       [MonitorEvent.rssiUpdate (some (-81)), MonitorEvent.away]) := by
    norm_num [evalTick, sample, nearStep, belowStep, weakAway, nearTrigger, needOf, cfgScenario]
  have a10 : applyDetections cfgScenario
      { last_seen_ts := 116, last_rssi := some (-81), below_since_ts := none, near_consec_count := 0 }
      ([{ addr := "aa:bb:cc:dd:ee:ff", name := "Phone", rssi := some (-60), time := 120 }]) 133 =
      ({ last_seen_ts := 120, last_rssi := some (-60), below_since_ts := none, near_consec_count := 0 },
       ([])) := by
    norm_num [applyDetections, onDetect, hmatchScenario, detsScenario]
  have e10 : evalTick true true cfgScenario
      { last_seen_ts := 120, last_rssi := some (-60), below_since_ts := none, near_consec_count := 0 } 133 =
      ({ last_seen_ts := 120, last_rssi := none, below_since_ts := none, near_consec_count := 0 },
       [MonitorEvent.rssiUpdate none]) := by
    norm_num [evalTick, sample, nearStep, belowStep, weakAway, nearTrigger, needOf, cfgScenario]
  have a11 : applyDetections cfgScenario
      { last_seen_ts := 120, last_rssi := none, below_since_ts := none, near_consec_count := 0 }
      ([]) 135 =
      ({ last_seen_ts := 120, last_rssi := none, below_since_ts := none, near_consec_count := 0 },
       ([])) := by
    norm_num [applyDetections, onDetect, hmatchScenario, detsScenario]
  have e11 : evalTick true true cfgScenario
      { last_seen_ts := 120, last_rssi := none, below_since_ts := none, near_consec_count := 0 } 135 =
      ({ last_seen_ts := 120, last_rssi := none, below_since_ts := none, near_consec_count := 0 },
       [MonitorEvent.rssiUpdate none, MonitorEvent.away]) := by
    norm_num [evalTick, sample, nearStep, belowStep, weakAway, nearTrigger, needOf, cfgScenario]
  unfold runScenario
  rw [runTicks_step_quiet (n := 10) a1 e1 (by decide)]
  rw [hIntervalScenario]
  norm_num
  rw [runTicks_step_quiet (n := 9) a2 e2 (by decide)]
  rw [hIntervalScenario]
  norm_num
  rw [runTicks_step_quiet (n := 8) a3 e3 (by decide)]
  rw [hIntervalScenario]
  norm_num
  rw [runTicks_step_quiet (n := 7) a4 e4 (by decide)]
  rw [hIntervalScenario]
  norm_num
  rw [runTicks_step_quiet (n := 6) a5 e5 (by decide)]
  rw [hIntervalScenario]
  norm_num
  rw [runTicks_step_quiet (n := 5) a6 e6 (by decide)]
  rw [hIntervalScenario]
  norm_num
  rw [runTicks_step_quiet (n := 4) a7 e7 (by decide)]
  rw [hIntervalScenario]
  norm_num
  rw [runTicks_step_quiet (n := 3) a8 e8 (by decide)]
  rw [hIntervalScenario]
  norm_num
  rw [runTicks_step_away (n := 2) a9 e9 (by decide)]
  rw [hGraceScenario, hIntervalScenario]
  norm_num
  rw [runTicks_step_quiet (n := 1) a10 e10 (by decide)]
  rw [hIntervalScenario]
  norm_num
  rw [runTicks_step_away (n := 0) a11 e11 (by decide)]
  rw [hGraceScenario, hIntervalScenario]
  norm_num
  simp [runTicks]



/-- C1 (counterexample to the claim as stated): in the end-to-end scenario
run, Away is emitted at t=116 (relative t=16, at/after t=15) as claimed,
but no Near event is ever emitted — in particular not at the first
evaluation tick after the t=120 detection: the post-Away grace cooldown
delays that tick to t=133, by which time the detection is stale, so the
ticks after t=120 emit only unknown-RSSI updates and a second silence
Away. -/
theorem C1_counterexample :
    (116, MonitorEvent.away) ∈ runScenario.1 ∧
    runScenario.1.filter (fun p => isNearEvent p.2) = [] ∧
    runScenario.1.filter (fun p => decide ((120 : Rat) < p.1)) =
      [(133, MonitorEvent.rssiUpdate none), (135, MonitorEvent.rssiUpdate none),
       (135, MonitorEvent.away)] := by
  rw [runScenario_eq]
  decide

/-- C1 (amended): with threshold -75, hysteresis 5, grace 15s, one
qualifying scan required and the source's 2s tick cadence, the scenario
detections (t=0 rssi -80, t=5 rssi -82, t=16 rssi -81, t=20 rssi -60,
shifted to base 100) produce: the weak-signal Away at relative t=16 (at or
after t=15); then, because the evaluator sleeps grace_period after Away,
the first tick after t=20 only occurs at relative t=33, when the t=20
detection is already stale, so no Near is emitted; instead a second Away
fires via silence at relative t=35.  The full run evaluates to exactly
these events. -/
theorem C1_end_to_end_scenario :
    runScenario.1 =
      [(100, MonitorEvent.rssiUpdate (some (-80))),
       (102, MonitorEvent.rssiUpdate (some (-80))),
       (104, MonitorEvent.rssiUpdate (some (-80))),
       (106, MonitorEvent.rssiUpdate (some (-82))),
       (108, MonitorEvent.rssiUpdate (some (-82))),
       (110, MonitorEvent.rssiUpdate (some (-82))),
       (112, MonitorEvent.rssiUpdate none),
       (114, MonitorEvent.rssiUpdate none),
       (116, MonitorEvent.rssiUpdate (some (-81))),
       (116, MonitorEvent.away),
       (133, MonitorEvent.rssiUpdate none),
       (135, MonitorEvent.rssiUpdate none),
       (135, MonitorEvent.away)] ∧
    runScenario.2 =
      { last_seen_ts := 120, last_rssi := none,
        below_since_ts := none, near_consec_count := 0 } := by
  rw [runScenario_eq]
  exact ⟨rfl, rfl⟩


/-- The staleness window of `cfgHyst` after the 1s floor. -/
theorem hStaleHyst : max ((cfgHyst.stale_after_sec : Int) : Rat) 1 = 6 := by
  norm_num [cfgHyst]

/-- The NEAR trigger of `cfgHyst`. -/
theorem hTrigHyst : nearTrigger cfgHyst = -70 := by decide

/-- Under `cfgHyst`, the weak-signal AWAY test is false whenever the timer,
if set, has run for less than the 15s grace period. -/
theorem weakAway_cfgHyst_false (b : Option Rat) (now : Rat)
    (hg : ∀ x, b = some x → now - x < 15) :
    weakAway cfgHyst b now = false := by
  rcases b with _ | x
  · rfl
  · have h15 : ((cfgHyst.grace_period_sec : Int) : Rat) = 15 := by
      norm_num [cfgHyst]
    simp [weakAway, h15, not_le.mpr (hg x rfl)]

/-- C2 (counterexample to the claim as stated): with threshold -75 and
hysteresis 5 (near trigger -70), a tick with rssi=-71 does NOT clear the
weak-signal timer, because the clearing test `rssi > near_trigger` is
`-71 > -70`, which is false: the timer stays set. -/
theorem C2_counterexample :
    (evalTick true true cfgHyst
      { last_seen_ts := 100, last_rssi := some (-71),
        below_since_ts := some 90, near_consec_count := 0 } 101).1.below_since_ts =
      some 90 := by
  norm_num [evalTick, sample, nearStep, belowStep, weakAway, nearTrigger,
    needOf, cfgHyst]

/-- C2 (amended): with threshold=-75 and hysteresis=5 (near_trigger=-70),
an evaluation tick (on a fresh, detected sample, before the grace period
has elapsed) with rssi=-73 neither starts nor clears the weak-signal
timer; since the clearing test is strictly `rssi > near_trigger`, a tick
with rssi=-69 clears the timer while ticks with rssi=-71 and rssi=-70 do
not. -/
theorem C2_hysteresis_dead_zone (t0 now : Rat) (b : Option Rat) (c : Nat)
    (h : t0 ≠ 0) (h2 : now - t0 ≤ 6)
    (hg : ∀ x, b = some x → now - x < 15) :
    ((evalTick true true cfgHyst
        { last_seen_ts := t0, last_rssi := some (-73),
          below_since_ts := b, near_consec_count := c } now).1.below_since_ts = b) ∧
    ((evalTick true true cfgHyst
        { last_seen_ts := t0, last_rssi := some (-70),
          below_since_ts := b, near_consec_count := c } now).1.below_since_ts = b) ∧
    ((evalTick true true cfgHyst
        { last_seen_ts := t0, last_rssi := some (-71),
          below_since_ts := b, near_consec_count := c } now).1.below_since_ts = b) ∧
    ((evalTick true true cfgHyst
        { last_seen_ts := t0, last_rssi := some (-69),
          below_since_ts := b, near_consec_count := c } now).1.below_since_ts =
      none) := by
  have hb73 : belowStep cfgHyst b (-73) now = b := by
    norm_num [belowStep, cfgHyst, nearTrigger]
  have hb70 : belowStep cfgHyst b (-70) now = b := by
    norm_num [belowStep, cfgHyst, nearTrigger]
  have hb71 : belowStep cfgHyst b (-71) now = b := by
    norm_num [belowStep, cfgHyst, nearTrigger]
  have hb69 : belowStep cfgHyst b (-69) now = none := by
    norm_num [belowStep, cfgHyst, nearTrigger]
  have hw := weakAway_cfgHyst_false b now hg
  refine ⟨?_, ?_, ?_, ?_⟩
  · rw [evalTick_fresh true true cfgHyst _ now (-73) h
      (by rw [hStaleHyst]; exact h2) rfl]
    simp [hb73, hw]
  · rw [evalTick_fresh true true cfgHyst _ now (-70) h
      (by rw [hStaleHyst]; exact h2) rfl]
    simp [hb70, hw]
  · rw [evalTick_fresh true true cfgHyst _ now (-71) h
      (by rw [hStaleHyst]; exact h2) rfl]
    simp [hb71, hw]
  · rw [evalTick_fresh true true cfgHyst _ now (-69) h
      (by rw [hStaleHyst]; exact h2) rfl]
    simp [hb69, weakAway]

/-- C2 witness: concrete instantiation of the dead-zone theorem. -/
theorem C2_hysteresis_dead_zone_witness :
    ((evalTick true true cfgHyst
        { last_seen_ts := 100, last_rssi := some (-73),
          below_since_ts := some 90, near_consec_count := 0 } 101).1.below_since_ts =
      some 90) ∧
    ((evalTick true true cfgHyst
        { last_seen_ts := 100, last_rssi := some (-69),
          below_since_ts := some 90, near_consec_count := 0 } 101).1.below_since_ts =
      none) :=
  ⟨(C2_hysteresis_dead_zone 100 101 (some 90) 0 (by norm_num) (by norm_num)
      (fun x hx => by injection hx with hh; subst hh; norm_num)).1,
   (C2_hysteresis_dead_zone 100 101 (some 90) 0 (by norm_num) (by norm_num)
      (fun x hx => by injection hx with hh; subst hh; norm_num)).2.2.2⟩

/-- The NEAR debounce step never pushes the counter past the requirement
when the on_near callback is registered. -/
theorem nearStep_le (cfg : MonitorConfig) (cnt : Nat) (r : Int) :
    (nearStep true cfg cnt r).1 ≤ needOf cfg := by
  simp only [nearStep]
  by_cases h1 : nearTrigger cfg < r
  · simp only [if_pos h1]
    by_cases h2 : needOf cfg ≤ cnt + 1
    · simp [h2]
    · simp only [true_and, if_neg h2]
      omega
  · simp only [if_neg h1]
    by_cases h2 : needOf cfg ≤ 0
    · simp [h2]
    · simp only [true_and, if_neg h2]
      exact Nat.zero_le _

/-- C3 (counterexample to the claim as stated): when the optional on_near
callback is NOT registered, the clamp at line 198 is skipped (line 192
guards both the emission and the clamp), so with
near_consecutive_required=1 the counter passes the requirement without any
Near emission and exceeds it on the next qualifying tick. -/
theorem C3_counterexample :
    (evalTick false true cfgOneScan
      { last_seen_ts := 100, last_rssi := some (-60),
        below_since_ts := none, near_consec_count := 0 } 101).1 =
      { last_seen_ts := 100, last_rssi := some (-60),
        below_since_ts := none, near_consec_count := 1 } ∧
    needOf cfgOneScan = 1 ∧
    (evalTick false true cfgOneScan
      { last_seen_ts := 100, last_rssi := some (-60),
        below_since_ts := none, near_consec_count := 1 } 102).1.near_consec_count =
      2 ∧
    (evalTick false true cfgOneScan
      { last_seen_ts := 100, last_rssi := some (-60),
        below_since_ts := none, near_consec_count := 1 } 102).2 =
      [MonitorEvent.rssiUpdate (some (-60))] := by
  refine ⟨?_, by decide, ?_, ?_⟩ <;>
    norm_num [evalTick, sample, nearStep, belowStep, weakAway, nearTrigger,
      needOf, cfgOneScan, cfgHyst]

/-- C3 (amended): provided the on_near callback was registered at
construction, a tick keeps the consecutive counter at or below the
requirement, and on any tick whose fresh sample strictly exceeds the near
trigger and whose incremented counter reaches the requirement, Near(rssi)
is emitted and the counter is clamped at the requirement. -/
theorem C3_near_counter_clamp (hR : Bool) (cfg : MonitorConfig)
    (st : MonitorState) (now : Rat)
    (hc : st.near_consec_count ≤ needOf cfg) :
    (evalTick true hR cfg st now).1.near_consec_count ≤ needOf cfg ∧
    (∀ r : Int, (sample cfg st now).1 = some r → st.last_seen_ts ≠ 0 →
      nearTrigger cfg < r → needOf cfg ≤ st.near_consec_count + 1 →
      MonitorEvent.near r ∈ (evalTick true hR cfg st now).2 ∧
      (evalTick true hR cfg st now).1.near_consec_count = needOf cfg) := by
  constructor
  · by_cases h0 : st.last_seen_ts = 0
    · rw [evalTick_neverSeen true hR cfg st now h0]
      exact hc
    · by_cases hnull : (sample cfg st now).1 = none
      · rw [evalTick_null true hR cfg st now h0 hnull]
        exact Nat.zero_le _
      · obtain ⟨r, hr⟩ := Option.ne_none_iff_exists.mp hnull
        by_cases h2 : max (cfg.stale_after_sec : Rat) 1 < now - st.last_seen_ts
        · exact absurd (by rw [sample_stale cfg st now h0 h2]) hnull
        · have hfr : st.last_rssi = some r := by
            have := sample_fresh cfg st now h0 (not_lt.mp h2)
            rw [this] at hr
            exact hr.symm
          rw [evalTick_fresh true hR cfg st now r h0 (not_lt.mp h2) hfr]
          exact nearStep_le cfg st.near_consec_count r
  · intro r hr h0 htrig hneed
    by_cases h2 : max (cfg.stale_after_sec : Rat) 1 < now - st.last_seen_ts
    · rw [sample_stale cfg st now h0 h2] at hr
      exact absurd hr (by simp)
    · have hfr : st.last_rssi = some r := by
        have := sample_fresh cfg st now h0 (not_lt.mp h2)
        rw [this] at hr
        exact hr
      rw [evalTick_fresh true hR cfg st now r h0 (not_lt.mp h2) hfr]
      have hstep : nearStep true cfg st.near_consec_count r =
          (needOf cfg, [MonitorEvent.near r]) := by
        unfold nearStep
        rw [if_pos htrig, if_pos ⟨rfl, hneed⟩]
      rw [hstep]
      simp

/-- C3 witness: with on_near registered and a one-scan requirement, a
single fresh qualifying tick emits Near and respects the clamp bound. -/
theorem C3_near_counter_clamp_witness :
    (evalTick true true cfgOneScan
      { last_seen_ts := 100, last_rssi := some (-60),
        below_since_ts := none, near_consec_count := 0 } 101).1.near_consec_count ≤
      needOf cfgOneScan ∧
    MonitorEvent.near (-60) ∈ (evalTick true true cfgOneScan
      { last_seen_ts := 100, last_rssi := some (-60),
        below_since_ts := none, near_consec_count := 0 } 101).2 :=
  ⟨(C3_near_counter_clamp true cfgOneScan
      { last_seen_ts := 100, last_rssi := some (-60),
        below_since_ts := none, near_consec_count := 0 } 101 (by decide)).1,
   ((C3_near_counter_clamp true cfgOneScan
      { last_seen_ts := 100, last_rssi := some (-60),
        below_since_ts := none, near_consec_count := 0 } 101 (by decide)).2 (-60)
      (by norm_num [sample, cfgOneScan, cfgHyst]) (by norm_num)
      (by decide) (by decide)).1⟩


/-- C4: with near_consecutive_required=2 (and on_near registered), on
fresh detected samples: a single qualifying tick (rssi above the near
trigger -70) raises the counter to 1 and emits no Near; a second
consecutive qualifying tick emits Near and reaches the required count 2;
and any non-qualifying fresh tick resets the counter to 0, from any
counter value, so two fresh consecutive qualifying ticks are again
required. -/
theorem C4_debounce (t0 now : Rat) (b : Option Rat) (r : Int)
    (h : t0 ≠ 0) (h2 : now - t0 ≤ 6) :
    (-70 < r →
      (evalTick true true cfgHyst
        { last_seen_ts := t0, last_rssi := some r,
          below_since_ts := b, near_consec_count := 0 } now).1.near_consec_count =
        1 ∧
      (evalTick true true cfgHyst
        { last_seen_ts := t0, last_rssi := some r,
          below_since_ts := b, near_consec_count := 0 } now).2.filter
        isNearEvent = []) ∧
    (-70 < r →
      MonitorEvent.near r ∈ (evalTick true true cfgHyst
        { last_seen_ts := t0, last_rssi := some r,
          below_since_ts := b, near_consec_count := 1 } now).2 ∧
      (evalTick true true cfgHyst
        { last_seen_ts := t0, last_rssi := some r,
          below_since_ts := b, near_consec_count := 1 } now).1.near_consec_count =
        2) ∧
    (∀ c : Nat, r ≤ -70 →
      (evalTick true true cfgHyst
        { last_seen_ts := t0, last_rssi := some r,
          below_since_ts := b, near_consec_count := c } now).1.near_consec_count =
        0) := by
  have hneed : needOf cfgHyst = 2 := by decide
  refine ⟨?_, ?_, ?_⟩
  · intro hr
    rw [evalTick_fresh true true cfgHyst _ now r h
      (by rw [hStaleHyst]; exact h2) rfl]
    have hstep : nearStep true cfgHyst 0 r = (1, []) := by
      simp only [nearStep, hTrigHyst, if_pos hr, hneed]
      rw [if_neg (by omega)]
    rw [hstep]
    constructor
    · rfl
    · simp [isNearEvent]
  · intro hr
    rw [evalTick_fresh true true cfgHyst _ now r h
      (by rw [hStaleHyst]; exact h2) rfl]
    have hstep : nearStep true cfgHyst 1 r = (2, [MonitorEvent.near r]) := by
      simp only [nearStep, hTrigHyst, if_pos hr, hneed]
      rw [if_pos ⟨trivial, by omega⟩]
    rw [hstep]
    constructor
    · simp
    · rfl
  · intro c hr
    rw [evalTick_fresh true true cfgHyst _ now r h
      (by rw [hStaleHyst]; exact h2) rfl]
    have hstep : nearStep true cfgHyst c r = (0, []) := by
      simp only [nearStep, hTrigHyst, if_neg (not_lt.mpr hr), hneed]
      rw [if_neg (by omega)]
    rw [hstep]

/-- C4 witness: concrete instantiation of all three debounce parts. -/
theorem C4_debounce_witness :
    (evalTick true true cfgHyst
      { last_seen_ts := 100, last_rssi := some (-60),
        below_since_ts := none, near_consec_count := 0 } 101).1.near_consec_count =
      1 ∧
    MonitorEvent.near (-60) ∈ (evalTick true true cfgHyst
      { last_seen_ts := 100, last_rssi := some (-60),
        below_since_ts := none, near_consec_count := 1 } 101).2 ∧
    (evalTick true true cfgHyst
      { last_seen_ts := 100, last_rssi := some (-73),
        below_since_ts := none, near_consec_count := 5 } 101).1.near_consec_count =
      0 :=
  ⟨((C4_debounce 100 101 none (-60) (by norm_num) (by norm_num)).1
      (by decide)).1,
   ((C4_debounce 100 101 none (-60) (by norm_num) (by norm_num)).2.1
      (by decide)).1,
   (C4_debounce 100 101 none (-73) (by norm_num) (by norm_num)).2.2 5
      (by decide)⟩

/-- C5: on any evaluation tick where the device has been seen but the
sampled RSSI is null (unseen or stale), the NEAR consecutive counter is
reset to 0, and Away is emitted if and only if the time since last seen is
at least stale_after + unseen_grace. -/
theorem C5_away_via_silence (hN hR : Bool) (cfg : MonitorConfig)
    (st : MonitorState) (now : Rat)
    (h : st.last_seen_ts ≠ 0)
    (hnull : (sample cfg st now).1 = none) :
    (evalTick hN hR cfg st now).1.near_consec_count = 0 ∧
    (MonitorEvent.away ∈ (evalTick hN hR cfg st now).2 ↔
      (cfg.stale_after_sec : Rat) + (cfg.unseen_grace_sec : Rat) ≤
        now - st.last_seen_ts) := by
  rw [evalTick_null hN hR cfg st now h hnull]
  constructor
  · rfl
  · by_cases hc : (cfg.stale_after_sec : Rat) + (cfg.unseen_grace_sec : Rat) ≤
        now - st.last_seen_ts
    · simp [hc]
    · cases hR <;> simp [hc]

/-- C5 witness: with stale_after=6 and unseen_grace=8, a device unseen for
14s triggers Away (and the counter resets), while one unseen for 13.9s
does not. -/
theorem C5_away_via_silence_witness :
    MonitorEvent.away ∈ (evalTick true true cfgHyst
      { last_seen_ts := 100, last_rssi := some (-60),
        below_since_ts := none, near_consec_count := 3 } 114).2 ∧
    (evalTick true true cfgHyst
      { last_seen_ts := 100, last_rssi := some (-60),
        below_since_ts := none, near_consec_count := 3 } 114).1.near_consec_count =
      0 ∧
    MonitorEvent.away ∉ (evalTick true true cfgHyst
      { last_seen_ts := 100, last_rssi := some (-60),
        below_since_ts := none, near_consec_count := 3 } (1139 / 10)).2 :=
  ⟨(C5_away_via_silence true true cfgHyst
      { last_seen_ts := 100, last_rssi := some (-60),
        below_since_ts := none, near_consec_count := 3 } 114
      (by norm_num) (by norm_num [sample, cfgHyst])).2.mpr
      (by norm_num [cfgHyst]),
   (C5_away_via_silence true true cfgHyst
      { last_seen_ts := 100, last_rssi := some (-60),
        below_since_ts := none, near_consec_count := 3 } 114
      (by norm_num) (by norm_num [sample, cfgHyst])).1,
   fun hmem =>
     absurd ((C5_away_via_silence true true cfgHyst
       { last_seen_ts := 100, last_rssi := some (-60),
         below_since_ts := none, near_consec_count := 3 } (1139 / 10)
       (by norm_num) (by norm_num [sample, cfgHyst])).2.mp hmem)
       (by norm_num [cfgHyst])⟩

/-- C6: sampling on a never-seen tracker yields (None, None); past the
1s-floored staleness window it yields None and persistently nulls the
stored RSSI; otherwise it yields the stored RSSI; once nulled, every later
sample yields None until a fresh matching detection stores a new RSSI. -/
theorem C6_staleness_invalidation :
    (∀ (cfg : MonitorConfig) (st : MonitorState) (now : Rat),
      st.last_seen_ts = 0 → st.last_rssi = none →
      sample cfg st now = (none, none, st)) ∧
    (∀ (cfg : MonitorConfig) (st : MonitorState) (now : Rat),
      st.last_seen_ts ≠ 0 →
      max (cfg.stale_after_sec : Rat) 1 < now - st.last_seen_ts →
      sample cfg st now =
        (none, some (now - st.last_seen_ts), { st with last_rssi := none })) ∧
    (∀ (cfg : MonitorConfig) (st : MonitorState) (now : Rat),
      st.last_seen_ts ≠ 0 →
      now - st.last_seen_ts ≤ max (cfg.stale_after_sec : Rat) 1 →
      sample cfg st now = (st.last_rssi, some (now - st.last_seen_ts), st)) ∧
    (∀ (cfg : MonitorConfig) (st : MonitorState) (now : Rat),
      st.last_rssi = none →
      (sample cfg st now).1 = none ∧ (sample cfg st now).2.2.last_rssi = none) ∧
    (∀ (cfg : MonitorConfig) (st : MonitorState) (d : Detection),
      matchesTarget cfg d.addr d.name = true →
      (onDetect cfg st d).last_rssi = d.rssi ∧
      (onDetect cfg st d).last_seen_ts = d.time) := by
  refine ⟨?_, ?_, ?_, ?_, ?_⟩
  · intro cfg st now h hrn
    rw [sample_neverSeen cfg st now h, hrn]
  · intro cfg st now h h2
    exact sample_stale cfg st now h h2
  · intro cfg st now h h2
    exact sample_fresh cfg st now h h2
  · intro cfg st now hrn
    by_cases h0 : st.last_seen_ts = 0
    · rw [sample_neverSeen cfg st now h0, hrn]
      exact ⟨rfl, rfl⟩
    · by_cases h2 : max (cfg.stale_after_sec : Rat) 1 < now - st.last_seen_ts
      · rw [sample_stale cfg st now h0 h2]
        exact ⟨rfl, rfl⟩
      · rw [sample_fresh cfg st now h0 (not_lt.mp h2), hrn]
        exact ⟨rfl, rfl⟩
  · intro cfg st d h
    simp [onDetect, h]

/-- C6 witness: concrete instantiations of every hypothesis-bearing
conjunct of the staleness claim. -/
theorem C6_staleness_invalidation_witness :
    sample cfgHyst { last_seen_ts := 0, last_rssi := none,
                     below_since_ts := none, near_consec_count := 0 } 50 =
      (none, none, { last_seen_ts := 0, last_rssi := none,
                     below_since_ts := none, near_consec_count := 0 }) ∧
    sample cfgHyst { last_seen_ts := 100, last_rssi := some (-60),
                     below_since_ts := none, near_consec_count := 0 } 107 =
      (none, some (107 - 100), { last_seen_ts := 100, last_rssi := none,
                                 below_since_ts := none, near_consec_count := 0 }) ∧
    sample cfgHyst { last_seen_ts := 100, last_rssi := some (-60),
                     below_since_ts := none, near_consec_count := 0 } 105 =
      (some (-60), some (105 - 100),
       { last_seen_ts := 100, last_rssi := some (-60),
         below_since_ts := none, near_consec_count := 0 }) ∧
    (sample cfgHyst { last_seen_ts := 100, last_rssi := none,
                      below_since_ts := none, near_consec_count := 0 } 105).1 = none := by
  refine ⟨C6_staleness_invalidation.1 _ _ _ rfl rfl, ?_, ?_, ?_⟩
  · exact C6_staleness_invalidation.2.1 cfgHyst
      { last_seen_ts := 100, last_rssi := some (-60),
        below_since_ts := none, near_consec_count := 0 } 107
      (by norm_num) (by norm_num [cfgHyst])
  · exact C6_staleness_invalidation.2.2.1 cfgHyst
      { last_seen_ts := 100, last_rssi := some (-60),
        below_since_ts := none, near_consec_count := 0 } 105
      (by norm_num) (by norm_num [cfgHyst])
  · exact (C6_staleness_invalidation.2.2.2.1 cfgHyst
      { last_seen_ts := 100, last_rssi := none,
        below_since_ts := none, near_consec_count := 0 } 105 rfl).1


/-- With both target address and target name empty, no detection ever
matches. -/
theorem matchesTarget_empty (cfg : MonitorConfig) (a d : String)
    (hm : cfg.device_mac.getD "" = "") (hn : cfg.device_name.getD "" = "") :
    matchesTarget cfg a d = false := by
  unfold matchesTarget
  rw [hm, hn]
  rw [show pyUpper "" = "" from by decide,
      show pyLower (pyStrip "") = "" from by decide]
  simp

/-- When no detection can match, applying pending detections leaves the
tracker state unchanged. -/
theorem applyDetections_fst_noMatch (cfg : MonitorConfig)
    (ds : List Detection) (st : MonitorState) (t : Rat)
    (hm : ∀ a d, matchesTarget cfg a d = false) :
    (applyDetections cfg st ds t).1 = st := by
  induction ds generalizing st with
  | nil => rfl
  | cons d rest ih =>
    have hd : onDetect cfg st d = st := by simp [onDetect, hm]
    simp only [applyDetections, hd]
    split_ifs <;> simp [ih]

/-- A run whose state has never seen the device emits no presence event,
whatever detections arrive, provided none of them can match. -/
theorem runTicks_inert (hN hR : Bool) (cfg : MonitorConfig)
    (hm : ∀ a d, matchesTarget cfg a d = false) (n : Nat) :
    ∀ (st : MonitorState), st.last_seen_ts = 0 → ∀ (ds : List Detection) (t0 : Rat),
      (runTicks hN hR cfg n st ds t0).1.filter (fun p => isPresenceEvent p.2) =
        [] := by
  induction n with
  | zero => intro st h ds t0; simp [runTicks]
  | succ n ih =>
    intro st h ds t0
    have ha : (applyDetections cfg st ds t0).1 = st :=
      applyDetections_fst_noMatch cfg ds st t0 hm
    have he := evalTick_neverSeen hN hR cfg st t0 h
    simp only [runTicks, ha, he, List.filter_append]
    rw [ih st h ((applyDetections cfg st ds t0)).2]
    cases hR <;> simp [isPresenceEvent]

/-- A run of pure evaluation ticks (no detections) on a never-seen state
leaves the state unchanged. -/
theorem runTicks_neverSeen_state (hN hR : Bool) (cfg : MonitorConfig)
    (n : Nat) :
    ∀ (st : MonitorState), st.last_seen_ts = 0 → ∀ (t0 : Rat),
      (runTicks hN hR cfg n st [] t0).2 = st := by
  induction n with
  | zero => intro st h t0; simp [runTicks]
  | succ n ih =>
    intro st h t0
    have he := evalTick_neverSeen hN hR cfg st t0 h
    simp only [runTicks, applyDetections, he]
    exact ih st h _

/-- A run of pure evaluation ticks (no detections) on a never-seen state
emits no presence event. -/
theorem runTicks_neverSeen_filter (hN hR : Bool) (cfg : MonitorConfig)
    (n : Nat) :
    ∀ (st : MonitorState), st.last_seen_ts = 0 → ∀ (t0 : Rat),
      (runTicks hN hR cfg n st [] t0).1.filter (fun p => isPresenceEvent p.2) =
        [] := by
  induction n with
  | zero => intro st h t0; simp [runTicks]
  | succ n ih =>
    intro st h t0
    have he := evalTick_neverSeen hN hR cfg st t0 h
    simp only [runTicks, applyDetections, he, List.filter_append]
    rw [ih st h]
    cases hR <;> simp [isPresenceEvent]

/-- C7: a monitor that has never received a matching detection never emits
Near or Away: (a) any number of pure evaluation ticks from a never-seen
state emits no presence event and leaves the state never-seen; (b) when
both target address and target name are empty, no detection matches, so a
freshly constructed monitor never emits Near or Away over any mixed
sequence of detections and ticks. -/
theorem C7_never_seen_inertness :
    (∀ (hN hR : Bool) (cfg : MonitorConfig) (st : MonitorState)
       (n : Nat) (t0 : Rat), st.last_seen_ts = 0 →
      (runTicks hN hR cfg n st [] t0).1.filter (fun p => isPresenceEvent p.2) =
        [] ∧
      (runTicks hN hR cfg n st [] t0).2 = st) ∧
    (∀ (hN hR : Bool) (cfg : MonitorConfig) (ds : List Detection)
       (n : Nat) (t0 : Rat),
      cfg.device_mac.getD "" = "" → cfg.device_name.getD "" = "" →
      (runTicks hN hR cfg n ({} : MonitorState) ds t0).1.filter
        (fun p => isPresenceEvent p.2) = []) := by
  constructor
  · intro hN hR cfg st n t0 h
    exact ⟨runTicks_neverSeen_filter hN hR cfg n st h t0,
           runTicks_neverSeen_state hN hR cfg n st h t0⟩
  · intro hN hR cfg ds n t0 hm hn
    exact runTicks_inert hN hR cfg
      (fun a d => matchesTarget_empty cfg a d hm hn) n {} rfl ds t0

/-- C7 witness: a concrete never-seen run, and a concrete empty-target
monitor fed a detection, emit no presence events. -/
theorem C7_never_seen_inertness_witness :
    (runTicks true true cfgHyst 3
      ({ last_seen_ts := 0, last_rssi := none,
         below_since_ts := none, near_consec_count := 0 }) [] 50).1.filter
      (fun p => isPresenceEvent p.2) = [] ∧
    (runTicks true true cfgEmptyTarget 2 ({} : MonitorState)
      [ { addr := "aa:bb:cc:dd:ee:ff", name := "Phone",
          rssi := some (-40), time := 50 } ] 50).1.filter
      (fun p => isPresenceEvent p.2) = [] :=
  ⟨(C7_never_seen_inertness.1 true true cfgHyst
      { last_seen_ts := 0, last_rssi := none,
        below_since_ts := none, near_consec_count := 0 } 3 50 rfl).1,
   C7_never_seen_inertness.2 true true cfgEmptyTarget
      [ { addr := "aa:bb:cc:dd:ee:ff", name := "Phone",
          rssi := some (-40), time := 50 } ] 2 50 rfl rfl⟩

/-- C8: update_config installs the new configuration and resets every
tracker field to its empty/zero value; consequently the first evaluation
tick after the swap cannot emit Away (the reset tracker is never-seen and
the tick is inert). -/
theorem C8_config_swap_resets_state (newCfg : MonitorConfig) (st : MonitorState) :
    update_config newCfg st =
      (newCfg, { last_seen_ts := 0, last_rssi := none,
                 below_since_ts := none, near_consec_count := 0 }) ∧
    ∀ (hN hR : Bool) (now : Rat),
      MonitorEvent.away ∉ (evalTick hN hR newCfg (update_config newCfg st).2 now).2 := by
  refine ⟨rfl, fun hN hR now => ?_⟩
  rw [evalTick_neverSeen hN hR newCfg (update_config newCfg st).2 now rfl]
  cases hR <;> simp

/-- C9: from the 1s floor, three consecutive scanner-open failures sleep
exactly 1s, 2s, 4s at warning level; the doubled backoff is capped at 30s;
a failure with fewer than 3 prior consecutive errors logs at warning and
any later consecutive failure logs at debug only; a successful start resets
the backoff to 1s and the error counter to 0. -/
theorem C9_reconnect_backoff :
    (∀ s : SupState,
      iterateFailures 3 (onStartSuccess s) =
        ([(1, LogLevel.warning), (2, LogLevel.warning), (4, LogLevel.warning)],
         { backoff := 8, bleErrorCount := 3 })) ∧
    (∀ s : SupState, (onScanFailure s).1.backoff ≤ 30) ∧
    (∀ s : SupState, s.bleErrorCount < 3 →
      (onScanFailure s).2.2 = LogLevel.warning) ∧
    (∀ s : SupState, 3 ≤ s.bleErrorCount →
      (onScanFailure s).2.2 = LogLevel.debug) ∧
    (∀ (n : Nat) (s : SupState),
      (iterateFailures n (onStartSuccess s)).2.bleErrorCount = n) ∧
    (∀ s : SupState, onStartSuccess s = { backoff := 1, bleErrorCount := 0 }) := by
  refine ⟨?_, fun s => min_le_right _ _, ?_, ?_, ?_, fun s => rfl⟩
  · intro s
    norm_num [iterateFailures, onScanFailure, onStartSuccess]
  · intro s h
    simp only [onScanFailure]
    rw [if_pos (by omega)]
  · intro s h
    simp only [onScanFailure]
    rw [if_neg (by omega)]
  · intro n s
    rw [iterateFailures_count]
    simp [onStartSuccess]

/-- C9 witness: concrete instantiations — three failures from a reset
state, a warning-level fourth-from-scratch failure, and a debug-level
failure after three consecutive errors. -/
theorem C9_reconnect_backoff_witness :
    iterateFailures 3 (onStartSuccess { backoff := 13, bleErrorCount := 7 }) =
      ([(1, LogLevel.warning), (2, LogLevel.warning), (4, LogLevel.warning)],
       { backoff := 8, bleErrorCount := 3 }) ∧
    (onScanFailure { backoff := 1, bleErrorCount := 0 }).2.2 = LogLevel.warning ∧
    (onScanFailure { backoff := 8, bleErrorCount := 3 }).2.2 = LogLevel.debug ∧
    (iterateFailures 5 (onStartSuccess { backoff := 2, bleErrorCount := 1 })).2.bleErrorCount = 5 :=
  ⟨C9_reconnect_backoff.1 _,
   C9_reconnect_backoff.2.2.1 _ (by decide),
   C9_reconnect_backoff.2.2.2.1 _ (by decide),
   C9_reconnect_backoff.2.2.2.2.1 5 _⟩

/-- C10: the NEAR trigger is threshold + max(0, hysteresis), hence never
below the threshold, and a tick under a negative hysteresis behaves exactly
as under hysteresis 0. -/
theorem C10_hysteresis_clamping :
    (∀ cfg : MonitorConfig,
      nearTrigger cfg = cfg.rssi_threshold + max 0 cfg.hysteresis_db) ∧
    (∀ cfg : MonitorConfig, cfg.rssi_threshold ≤ nearTrigger cfg) ∧
    (∀ cfg : MonitorConfig, cfg.hysteresis_db < 0 →
      ∀ (hN hR : Bool) (st : MonitorState) (now : Rat),
        evalTick hN hR cfg st now =
          evalTick hN hR { cfg with hysteresis_db := 0 } st now) := by
  refine ⟨fun cfg => rfl, fun cfg => ?_, fun cfg h hN hR st now => ?_⟩
  · exact le_add_of_nonneg_right (le_max_left 0 cfg.hysteresis_db)
  · obtain ⟨mac, thr, grace, name, hyst, stale, unseen, si, scans⟩ := cfg
    simp only at h
    have hmax : max 0 hyst = (0 : Int) := max_eq_left h.le
    simp only [evalTick, sample, nearStep, belowStep, weakAway, needOf,
      nearTrigger, hmax, max_self]

/-- C10 witness: a concrete negative-hysteresis configuration behaves like
its hysteresis-0 counterpart on a concrete tick. -/
theorem C10_hysteresis_clamping_witness :
    cfgNegHyst.rssi_threshold ≤ nearTrigger cfgNegHyst ∧
    evalTick true true cfgNegHyst
        { last_seen_ts := 100, last_rssi := some (-74),
          below_since_ts := none, near_consec_count := 0 } 101 =
      evalTick true true { cfgNegHyst with hysteresis_db := 0 }
        { last_seen_ts := 100, last_rssi := some (-74),
          below_since_ts := none, near_consec_count := 0 } 101 :=
  ⟨C10_hysteresis_clamping.2.1 cfgNegHyst,
   C10_hysteresis_clamping.2.2 cfgNegHyst (by decide) true true _ 101⟩

end BluetoothScreenLock
